import Mathlib

set_option maxRecDepth 10000

/-!
Shallow embedding of `src/ctrl8xl.rs` from the ism330dhcx crate: the CTRL8_XL
accelerometer filter-configuration register mirror.  Bytes are modelled as
`Nat`; every operation of the source keeps values below 256, and the u8
complement is taken explicitly modulo 256.  The fallible bus write is modelled
as a function from the transaction triple to an `Except` result, and each
setter records the list of transactions it issues.
-/

namespace Ism330dhcx

/-- Sub-address of the register (source constant `ADDR = 0x17u8`). -/
def ADDR : Nat := 0x17

/-- Bit offset of the LPF2-on-6D selection bit (source constant). -/
def LOW_PASS_ON_6D : Nat := 0

/-- Bit offset of the slope / high-pass filter selection bit (source constant). -/
def HP_SLOPE_XL_EN : Nat := 2

/-- Bit offset of the fast-settling mode bit (source constant). -/
def FASTSETTL_MODE_XL : Nat := 3

/-- Bit offset of the high-pass reference mode bit (source constant). -/
def HP_REF_MODE_XL : Nat := 4

/-- Unshifted mask of the HPCF_XL cutoff field (source constant `0b111`). -/
def HPCF_XL_MASK : Nat := 0b111

/-- Bit offset of the HPCF_XL cutoff field (source constant `5`). -/
def HPCF_XL_OFFSET : Nat := 5

/-- Bitwise complement of a byte, the Rust u8 operator `!x`. -/
def compl8 (x : Nat) : Nat := (x % 256) ^^^ 255

/-- Cutoff selector enumeration `HPCF_Xl` of the source, in declaration order;
the wire encoding is the declaration ordinal (Rust `value as u8`). -/
inductive HPCF_Xl
  | ODR_SLOPE_4
  | ODR_10
  | ODR_20
  | ODR_45
  | ODR_100
  | ODR_200
  | ODR_400
  | ODR_800
deriving DecidableEq, Fintype

/-- Discriminant of a `HPCF_Xl` variant, the Rust cast `value as u8`. -/
def HPCF_Xl.toU8 : HPCF_Xl → Nat
  | .ODR_SLOPE_4 => 0
  | .ODR_10 => 1
  | .ODR_20 => 2
  | .ODR_45 => 3
  | .ODR_100 => 4
  | .ODR_200 => 5
  | .ODR_400 => 6
  | .ODR_800 => 7

/-- The CTRL8_XL register mirror: bus address of the device and the cached
byte value of the register (source struct `Ctrl8Xl`). -/
structure Ctrl8Xl where
  address : Nat
  value : Nat
deriving DecidableEq

/-- Constructor `Ctrl8Xl::new(value, address)`: no validation. -/
def Ctrl8Xl.new (value : Nat) (address : Nat) : Ctrl8Xl :=
  ⟨address, value⟩

/-- Decode the cutoff field into the ODR divisor (source method `hpcf`,
which returns `f32`; every value of the source match arm table is an integer,
exactly representable, so the result is modelled as `Nat`).  The source's
`panic!("Unreachable")` fallback arm is modelled as `none`. -/
def Ctrl8Xl.hpcf (s : Ctrl8Xl) : Option Nat :=
  match (s.value >>> HPCF_XL_OFFSET) &&& HPCF_XL_MASK with
  | 0 => some 4
  | 1 => some 10
  | 2 => some 20
  | 3 => some 45
  | 4 => some 100
  | 5 => some 200
  | 6 => some 400
  | 7 => some 800
  | _ => none

/-- Getter `hp_slope_xl_en(&mut self)`: reads its own bit.  The mutable
receiver is modelled by returning the (unchanged) register state. -/
def Ctrl8Xl.hp_slope_xl_en (s : Ctrl8Xl) : Bool × Ctrl8Xl :=
  ((s.value &&& (1 <<< HP_SLOPE_XL_EN)) != 0, s)

/-- Getter `low_pass_on_6d(&mut self)`: reads bit `LOW_PASS_ON_6D`. -/
def Ctrl8Xl.low_pass_on_6d (s : Ctrl8Xl) : Bool × Ctrl8Xl :=
  ((s.value &&& (1 <<< LOW_PASS_ON_6D)) != 0, s)

/-- Getter `fastsettl_mode(&mut self)`.  Faithful to the source, which tests
bit `LOW_PASS_ON_6D` (bit 0), not `FASTSETTL_MODE_XL` (bit 3). -/
def Ctrl8Xl.fastsettl_mode (s : Ctrl8Xl) : Bool × Ctrl8Xl :=
  ((s.value &&& (1 <<< LOW_PASS_ON_6D)) != 0, s)

/-- Getter `hp_ref_mode(&mut self)`.  Faithful to the source, which tests
bit `LOW_PASS_ON_6D` (bit 0), not `HP_REF_MODE_XL` (bit 4). -/
def Ctrl8Xl.hp_ref_mode (s : Ctrl8Xl) : Bool × Ctrl8Xl :=
  ((s.value &&& (1 <<< LOW_PASS_ON_6D)) != 0, s)

/-- Outcome of a setter: the updated register, the list of single-byte bus
transactions `(device_address, register_address, value)` issued, and the bus
result returned to the caller. -/
structure WriteOut (ε : Type) where
  st : Ctrl8Xl
  log : List (Nat × Nat × Nat)
  res : Except ε Unit

/-- Modelled from the spec: the `Register::write` trait method called by every
setter lives in this repository outside `src/`.  Per the spec's bus write
contract it issues exactly one single-byte write transaction
`(device_address, register_address, value)` on the bus and returns the
transaction's result unchanged. -/
def regWrite {ε : Type} (bw : Nat → Nat → Nat → Except ε Unit)
    (addr : Nat) (sub : Nat) (val : Nat) :
    List (Nat × Nat × Nat) × Except ε Unit :=
  ([(addr, sub, val)], bw addr sub val)

/-- Setter `set_hpcf`: clear the HPCF_XL bits, OR in the variant's ordinal
shifted into place, then write the whole byte over the bus. -/
def Ctrl8Xl.set_hpcf {ε : Type} (bw : Nat → Nat → Nat → Except ε Unit)
    (s : Ctrl8Xl) (value : HPCF_Xl) : WriteOut ε :=
  let v1 := s.value &&& compl8 (HPCF_XL_MASK <<< HPCF_XL_OFFSET)
  let v2 := v1 ||| (value.toU8 <<< HPCF_XL_OFFSET)
  let w := regWrite bw s.address ADDR v2
  ⟨⟨s.address, v2⟩, w.1, w.2⟩

/-- Setter `set_hp_slope_xl_en`. -/
def Ctrl8Xl.set_hp_slope_xl_en {ε : Type} (bw : Nat → Nat → Nat → Except ε Unit)
    (s : Ctrl8Xl) (value : Bool) : WriteOut ε :=
  let v1 := s.value &&& compl8 (1 <<< HP_SLOPE_XL_EN)
  let v2 := v1 ||| ((if value then 1 else 0) <<< HP_SLOPE_XL_EN)
  let w := regWrite bw s.address ADDR v2
  ⟨⟨s.address, v2⟩, w.1, w.2⟩

/-- Setter `set_low_pass_on_6d`. -/
def Ctrl8Xl.set_low_pass_on_6d {ε : Type} (bw : Nat → Nat → Nat → Except ε Unit)
    (s : Ctrl8Xl) (value : Bool) : WriteOut ε :=
  let v1 := s.value &&& compl8 (1 <<< LOW_PASS_ON_6D)
  let v2 := v1 ||| ((if value then 1 else 0) <<< LOW_PASS_ON_6D)
  let w := regWrite bw s.address ADDR v2
  ⟨⟨s.address, v2⟩, w.1, w.2⟩

/-- Setter `set_fastsettl_mode`: writes bit `FASTSETTL_MODE_XL` (bit 3). -/
def Ctrl8Xl.set_fastsettl_mode {ε : Type} (bw : Nat → Nat → Nat → Except ε Unit)
    (s : Ctrl8Xl) (value : Bool) : WriteOut ε :=
  let v1 := s.value &&& compl8 (1 <<< FASTSETTL_MODE_XL)
  let v2 := v1 ||| ((if value then 1 else 0) <<< FASTSETTL_MODE_XL)
  let w := regWrite bw s.address ADDR v2
  ⟨⟨s.address, v2⟩, w.1, w.2⟩

/-- Setter `set_hp_ref_mode`: writes bit `HP_REF_MODE_XL` (bit 4). -/
def Ctrl8Xl.set_hp_ref_mode {ε : Type} (bw : Nat → Nat → Nat → Except ε Unit)
    (s : Ctrl8Xl) (value : Bool) : WriteOut ε :=
  let v1 := s.value &&& compl8 (1 <<< HP_REF_MODE_XL)
  let v2 := v1 ||| ((if value then 1 else 0) <<< HP_REF_MODE_XL)
  let w := regWrite bw s.address ADDR v2
  ⟨⟨s.address, v2⟩, w.1, w.2⟩

/-- A bus on which every transaction succeeds. -/
def okBus : Nat → Nat → Nat → Except Unit Unit :=
  fun _ _ _ => Except.ok ()

/-- A bus on which every transaction fails. -/
def errBus : Nat → Nat → Nat → Except Unit Unit :=
  fun _ _ _ => Except.error ()

/-- Documented ODR divisor of each cutoff variant, stated from the spec's
words (4, 10, 20, 45, 100, 200, 400, 800 for ordinals 0-7), to be compared
with the decode path `Ctrl8Xl.hpcf`. -/
def expectedDivisor : HPCF_Xl → Nat
  | .ODR_SLOPE_4 => 4
  | .ODR_10 => 10
  | .ODR_20 => 20
  | .ODR_45 => 45
  | .ODR_100 => 100
  | .ODR_200 => 200
  | .ODR_400 => 400
  | .ODR_800 => 800

/-- Helper: the cutoff decode is total, since the selector bits are at most 7. -/
theorem hpcf_isSome (s : Ctrl8Xl) : (Ctrl8Xl.hpcf s).isSome := by
  have h7 : (s.value >>> HPCF_XL_OFFSET) &&& HPCF_XL_MASK ≤ 7 := by
    have h := @Nat.and_le_right (s.value >>> HPCF_XL_OFFSET) HPCF_XL_MASK
    simpa [HPCF_XL_MASK] using h
  unfold Ctrl8Xl.hpcf
  generalize hg : (s.value >>> HPCF_XL_OFFSET) &&& HPCF_XL_MASK = x at h7
  interval_cases x <;> rfl

/-- Helper: for every byte and every variant, the byte written by `set_hpcf`
decodes back to the variant's ordinal and to the documented divisor. -/
theorem set_hpcf_decode_aux : ∀ v < 256, ∀ vr : HPCF_Xl,
    ((((v &&& compl8 (HPCF_XL_MASK <<< HPCF_XL_OFFSET)) |||
        (vr.toU8 <<< HPCF_XL_OFFSET)) >>> HPCF_XL_OFFSET) &&& HPCF_XL_MASK
      = vr.toU8) ∧
    Ctrl8Xl.hpcf ⟨0, (v &&& compl8 (HPCF_XL_MASK <<< HPCF_XL_OFFSET)) |||
        (vr.toU8 <<< HPCF_XL_OFFSET)⟩ = some (expectedDivisor vr) := by
  decide

/-- Helper: for every byte, every boolean, and every variant, each setter's new
byte agrees with the old byte outside the written field's mask. -/
theorem setters_frame_aux : ∀ v < 256, ∀ (b : Bool) (vr : HPCF_Xl),
    (((v &&& compl8 (HPCF_XL_MASK <<< HPCF_XL_OFFSET)) |||
        (vr.toU8 <<< HPCF_XL_OFFSET)) &&& compl8 (HPCF_XL_MASK <<< HPCF_XL_OFFSET)
      = v &&& compl8 (HPCF_XL_MASK <<< HPCF_XL_OFFSET)) ∧
    (((v &&& compl8 (1 <<< HP_SLOPE_XL_EN)) |||
        ((if b then 1 else 0) <<< HP_SLOPE_XL_EN)) &&& compl8 (1 <<< HP_SLOPE_XL_EN)
      = v &&& compl8 (1 <<< HP_SLOPE_XL_EN)) ∧
    (((v &&& compl8 (1 <<< LOW_PASS_ON_6D)) |||
        ((if b then 1 else 0) <<< LOW_PASS_ON_6D)) &&& compl8 (1 <<< LOW_PASS_ON_6D)
      = v &&& compl8 (1 <<< LOW_PASS_ON_6D)) ∧
    (((v &&& compl8 (1 <<< FASTSETTL_MODE_XL)) |||
        ((if b then 1 else 0) <<< FASTSETTL_MODE_XL)) &&& compl8 (1 <<< FASTSETTL_MODE_XL)
      = v &&& compl8 (1 <<< FASTSETTL_MODE_XL)) ∧
    (((v &&& compl8 (1 <<< HP_REF_MODE_XL)) |||
        ((if b then 1 else 0) <<< HP_REF_MODE_XL)) &&& compl8 (1 <<< HP_REF_MODE_XL)
      = v &&& compl8 (1 <<< HP_REF_MODE_XL)) := by
  decide

/-- C1 (failing evaluation): from mirror byte 0x00, a successful
`set_fastsettl_mode(true)` sets bit 3 of the cached byte, yet the getter
`fastsettl_mode` returns `false` because it reads bit 0 (`LOW_PASS_ON_6D`);
likewise `set_hp_ref_mode(true)` is not seen by `hp_ref_mode`; and a
successful `set_low_pass_on_6d(true)` changes the decoded values of the
other fields `fastsettl_mode` and `hp_ref_mode` from `false` to `true`. -/
theorem c1_boolean_roundtrip_fails :
    ((Ctrl8Xl.set_fastsettl_mode okBus (Ctrl8Xl.new 0x00 0x6b) true).res = Except.ok () ∧
     (Ctrl8Xl.set_fastsettl_mode okBus (Ctrl8Xl.new 0x00 0x6b) true).st.value = 0x08 ∧
     (Ctrl8Xl.set_fastsettl_mode okBus (Ctrl8Xl.new 0x00 0x6b) true).st.fastsettl_mode.1 = false) ∧
    ((Ctrl8Xl.set_hp_ref_mode okBus (Ctrl8Xl.new 0x00 0x6b) true).st.value = 0x10 ∧
     (Ctrl8Xl.set_hp_ref_mode okBus (Ctrl8Xl.new 0x00 0x6b) true).st.hp_ref_mode.1 = false) ∧
    ((Ctrl8Xl.new 0x00 0x6b).fastsettl_mode.1 = false ∧
     (Ctrl8Xl.new 0x00 0x6b).hp_ref_mode.1 = false ∧
     (Ctrl8Xl.set_low_pass_on_6d okBus (Ctrl8Xl.new 0x00 0x6b) true).st.fastsettl_mode.1 = true ∧
     (Ctrl8Xl.set_low_pass_on_6d okBus (Ctrl8Xl.new 0x00 0x6b) true).st.hp_ref_mode.1 = true) := by
  refine ⟨⟨rfl, by decide, by decide⟩, ⟨by decide, by decide⟩, by decide, by decide, by decide, by decide⟩

/-- C2: for each of the 8 cutoff variants and every initial mirror byte, after
a successful `set_hpcf(variant)` the HPCF_XL bits of the cached byte decode to
that variant's ordinal, and `hpcf` returns the documented ODR divisor
(4, 10, 20, 45, 100, 200, 400, 800 for ordinals 0-7). -/
theorem c2_hpcf_roundtrip_divisor {ε : Type} (bw : Nat → Nat → Nat → Except ε Unit)
    (s : Ctrl8Xl) (vr : HPCF_Xl) (hb : s.value < 256)
    (hok : (Ctrl8Xl.set_hpcf bw s vr).res = Except.ok ()) :
    (((Ctrl8Xl.set_hpcf bw s vr).st.value >>> HPCF_XL_OFFSET) &&& HPCF_XL_MASK
       = vr.toU8) ∧
    (Ctrl8Xl.set_hpcf bw s vr).st.hpcf = some (expectedDivisor vr) := by
  obtain ⟨a, v⟩ := s
  exact ⟨(set_hpcf_decode_aux v hb vr).1, (set_hpcf_decode_aux v hb vr).2⟩

/-- C2 witness: the theorem applied at mirror byte 0xAB, variant ODR_45. -/
theorem c2_hpcf_roundtrip_divisor_witness :
    (0xAB < 256 ∧ (Ctrl8Xl.set_hpcf okBus (Ctrl8Xl.new 0xAB 0x6b) HPCF_Xl.ODR_45).res = Except.ok ()) ∧
    ((((Ctrl8Xl.set_hpcf okBus (Ctrl8Xl.new 0xAB 0x6b) HPCF_Xl.ODR_45).st.value >>> HPCF_XL_OFFSET) &&& HPCF_XL_MASK
       = HPCF_Xl.ODR_45.toU8) ∧
     (Ctrl8Xl.set_hpcf okBus (Ctrl8Xl.new 0xAB 0x6b) HPCF_Xl.ODR_45).st.hpcf
       = some (expectedDivisor HPCF_Xl.ODR_45)) :=
  ⟨⟨by decide, rfl⟩,
   c2_hpcf_roundtrip_divisor okBus (Ctrl8Xl.new 0xAB 0x6b) HPCF_Xl.ODR_45 (by decide) rfl⟩

/-- C3: every field write, whatever the bus outcome, leaves the cached bits
outside the written field's mask equal to the corresponding bits of the
initial byte. -/
theorem c3_writes_preserve_other_bits {ε : Type} (bw : Nat → Nat → Nat → Except ε Unit)
    (s : Ctrl8Xl) (hb : s.value < 256) (b : Bool) (vr : HPCF_Xl) :
    ((Ctrl8Xl.set_hpcf bw s vr).st.value &&& compl8 (HPCF_XL_MASK <<< HPCF_XL_OFFSET)
      = s.value &&& compl8 (HPCF_XL_MASK <<< HPCF_XL_OFFSET)) ∧
    ((Ctrl8Xl.set_hp_slope_xl_en bw s b).st.value &&& compl8 (1 <<< HP_SLOPE_XL_EN)
      = s.value &&& compl8 (1 <<< HP_SLOPE_XL_EN)) ∧
    ((Ctrl8Xl.set_low_pass_on_6d bw s b).st.value &&& compl8 (1 <<< LOW_PASS_ON_6D)
      = s.value &&& compl8 (1 <<< LOW_PASS_ON_6D)) ∧
    ((Ctrl8Xl.set_fastsettl_mode bw s b).st.value &&& compl8 (1 <<< FASTSETTL_MODE_XL)
      = s.value &&& compl8 (1 <<< FASTSETTL_MODE_XL)) ∧
    ((Ctrl8Xl.set_hp_ref_mode bw s b).st.value &&& compl8 (1 <<< HP_REF_MODE_XL)
      = s.value &&& compl8 (1 <<< HP_REF_MODE_XL)) := by
  obtain ⟨a, v⟩ := s
  exact setters_frame_aux v hb b vr

/-- C3 witness: the theorem applied at mirror byte 0b0101_1010. -/
theorem c3_writes_preserve_other_bits_witness :
    (0x5A < 256) ∧
    (((Ctrl8Xl.set_hpcf okBus (Ctrl8Xl.new 0x5A 0x6b) HPCF_Xl.ODR_800).st.value &&& compl8 (HPCF_XL_MASK <<< HPCF_XL_OFFSET)
      = (Ctrl8Xl.new 0x5A 0x6b).value &&& compl8 (HPCF_XL_MASK <<< HPCF_XL_OFFSET)) ∧
     ((Ctrl8Xl.set_hp_slope_xl_en okBus (Ctrl8Xl.new 0x5A 0x6b) true).st.value &&& compl8 (1 <<< HP_SLOPE_XL_EN)
      = (Ctrl8Xl.new 0x5A 0x6b).value &&& compl8 (1 <<< HP_SLOPE_XL_EN)) ∧
     ((Ctrl8Xl.set_low_pass_on_6d okBus (Ctrl8Xl.new 0x5A 0x6b) true).st.value &&& compl8 (1 <<< LOW_PASS_ON_6D)
      = (Ctrl8Xl.new 0x5A 0x6b).value &&& compl8 (1 <<< LOW_PASS_ON_6D)) ∧
     ((Ctrl8Xl.set_fastsettl_mode okBus (Ctrl8Xl.new 0x5A 0x6b) true).st.value &&& compl8 (1 <<< FASTSETTL_MODE_XL)
      = (Ctrl8Xl.new 0x5A 0x6b).value &&& compl8 (1 <<< FASTSETTL_MODE_XL)) ∧
     ((Ctrl8Xl.set_hp_ref_mode okBus (Ctrl8Xl.new 0x5A 0x6b) true).st.value &&& compl8 (1 <<< HP_REF_MODE_XL)
      = (Ctrl8Xl.new 0x5A 0x6b).value &&& compl8 (1 <<< HP_REF_MODE_XL))) :=
  ⟨by decide, c3_writes_preserve_other_bits okBus (Ctrl8Xl.new 0x5A 0x6b) (by decide) true HPCF_Xl.ODR_800⟩

/-- C4: every setter advances the cached byte to the cleared-then-ORed value
unconditionally: the resulting register state is the same for every bus
(in particular the same as for the always-succeeding bus), and on the
always-failing bus the result is the bus error while the cached byte still
holds the new value — no rollback. -/
theorem c4_mirror_advances_unconditionally {ε : Type} (bw : Nat → Nat → Nat → Except ε Unit)
    (s : Ctrl8Xl) (b : Bool) (vr : HPCF_Xl) :
    ((Ctrl8Xl.set_hpcf bw s vr).st = (Ctrl8Xl.set_hpcf okBus s vr).st ∧
     (Ctrl8Xl.set_hpcf bw s vr).st.value
       = (s.value &&& compl8 (HPCF_XL_MASK <<< HPCF_XL_OFFSET)) ||| (vr.toU8 <<< HPCF_XL_OFFSET)) ∧
    ((Ctrl8Xl.set_hp_slope_xl_en bw s b).st = (Ctrl8Xl.set_hp_slope_xl_en okBus s b).st ∧
     (Ctrl8Xl.set_hp_slope_xl_en bw s b).st.value
       = (s.value &&& compl8 (1 <<< HP_SLOPE_XL_EN)) ||| ((if b then 1 else 0) <<< HP_SLOPE_XL_EN)) ∧
    ((Ctrl8Xl.set_low_pass_on_6d bw s b).st = (Ctrl8Xl.set_low_pass_on_6d okBus s b).st ∧
     (Ctrl8Xl.set_low_pass_on_6d bw s b).st.value
       = (s.value &&& compl8 (1 <<< LOW_PASS_ON_6D)) ||| ((if b then 1 else 0) <<< LOW_PASS_ON_6D)) ∧
    ((Ctrl8Xl.set_fastsettl_mode bw s b).st = (Ctrl8Xl.set_fastsettl_mode okBus s b).st ∧
     (Ctrl8Xl.set_fastsettl_mode bw s b).st.value
       = (s.value &&& compl8 (1 <<< FASTSETTL_MODE_XL)) ||| ((if b then 1 else 0) <<< FASTSETTL_MODE_XL)) ∧
    ((Ctrl8Xl.set_hp_ref_mode bw s b).st = (Ctrl8Xl.set_hp_ref_mode okBus s b).st ∧
     (Ctrl8Xl.set_hp_ref_mode bw s b).st.value
       = (s.value &&& compl8 (1 <<< HP_REF_MODE_XL)) ||| ((if b then 1 else 0) <<< HP_REF_MODE_XL)) ∧
    ((Ctrl8Xl.set_hpcf errBus s vr).res = Except.error () ∧
     (Ctrl8Xl.set_hp_slope_xl_en errBus s b).res = Except.error () ∧
     (Ctrl8Xl.set_low_pass_on_6d errBus s b).res = Except.error () ∧
     (Ctrl8Xl.set_fastsettl_mode errBus s b).res = Except.error () ∧
     (Ctrl8Xl.set_hp_ref_mode errBus s b).res = Except.error ()) :=
  ⟨⟨rfl, rfl⟩, ⟨rfl, rfl⟩, ⟨rfl, rfl⟩, ⟨rfl, rfl⟩, ⟨rfl, rfl⟩, rfl, rfl, rfl, rfl, rfl⟩

/-- C5 (failing evaluation): from mirror byte 0xFF, a successful
`set_low_pass_on_6d(false)` gives cached byte 0xFE, the `hp_slope_xl_en`
getter and the HPCF_XL decode still read as set (true / ordinal 7 / divisor
800), but the getters `fastsettl_mode` and `hp_ref_mode` now return `false`
although bits 3 and 4 are still set, because they read bit 0. -/
theorem c5_example_0xFF_fails :
    (Ctrl8Xl.set_low_pass_on_6d okBus (Ctrl8Xl.new 0xFF 0x6b) false).res = Except.ok () ∧
    (Ctrl8Xl.set_low_pass_on_6d okBus (Ctrl8Xl.new 0xFF 0x6b) false).st.value = 0xFE ∧
    (Ctrl8Xl.set_low_pass_on_6d okBus (Ctrl8Xl.new 0xFF 0x6b) false).st.hp_slope_xl_en.1 = true ∧
    (((Ctrl8Xl.set_low_pass_on_6d okBus (Ctrl8Xl.new 0xFF 0x6b) false).st.value >>> HPCF_XL_OFFSET) &&& HPCF_XL_MASK = 7) ∧
    (Ctrl8Xl.set_low_pass_on_6d okBus (Ctrl8Xl.new 0xFF 0x6b) false).st.hpcf = some 800 ∧
    ((Ctrl8Xl.set_low_pass_on_6d okBus (Ctrl8Xl.new 0xFF 0x6b) false).st.value &&& (1 <<< FASTSETTL_MODE_XL) ≠ 0) ∧
    ((Ctrl8Xl.set_low_pass_on_6d okBus (Ctrl8Xl.new 0xFF 0x6b) false).st.value &&& (1 <<< HP_REF_MODE_XL) ≠ 0) ∧
    (Ctrl8Xl.set_low_pass_on_6d okBus (Ctrl8Xl.new 0xFF 0x6b) false).st.fastsettl_mode.1 = false ∧
    (Ctrl8Xl.set_low_pass_on_6d okBus (Ctrl8Xl.new 0xFF 0x6b) false).st.hp_ref_mode.1 = false := by
  refine ⟨rfl, by decide, by decide, by decide, by decide, by decide, by decide, by decide, by decide⟩

/-- C6: from mirror byte 0x00, a successful `set_hpcf(ODR_45)` (ordinal 3)
gives cached byte 0b01100000 = 0x60 and `hpcf` returns 45 (the source's
`45.0f32`, an exactly-representable integer). -/
theorem c6_example_hpcf_45 :
    (Ctrl8Xl.set_hpcf okBus (Ctrl8Xl.new 0x00 0x6b) HPCF_Xl.ODR_45).res = Except.ok () ∧
    (Ctrl8Xl.set_hpcf okBus (Ctrl8Xl.new 0x00 0x6b) HPCF_Xl.ODR_45).st.value = 0b01100000 ∧
    (Ctrl8Xl.set_hpcf okBus (Ctrl8Xl.new 0x00 0x6b) HPCF_Xl.ODR_45).st.hpcf = some 45 := by
  refine ⟨rfl, by decide, by decide⟩

/-- C7: every setter issues exactly one single-byte bus transaction, addressed
with the mirror's stored bus address, the fixed sub-address `ADDR = 0x17`, and
the new cached byte as payload, and returns the bus's result for that very
transaction unchanged. -/
theorem c7_single_bus_transaction {ε : Type} (bw : Nat → Nat → Nat → Except ε Unit)
    (s : Ctrl8Xl) (b : Bool) (vr : HPCF_Xl) :
    ((Ctrl8Xl.set_hpcf bw s vr).log = [(s.address, ADDR, (Ctrl8Xl.set_hpcf bw s vr).st.value)] ∧
     (Ctrl8Xl.set_hpcf bw s vr).res = bw s.address ADDR (Ctrl8Xl.set_hpcf bw s vr).st.value) ∧
    ((Ctrl8Xl.set_hp_slope_xl_en bw s b).log = [(s.address, ADDR, (Ctrl8Xl.set_hp_slope_xl_en bw s b).st.value)] ∧
     (Ctrl8Xl.set_hp_slope_xl_en bw s b).res = bw s.address ADDR (Ctrl8Xl.set_hp_slope_xl_en bw s b).st.value) ∧
    ((Ctrl8Xl.set_low_pass_on_6d bw s b).log = [(s.address, ADDR, (Ctrl8Xl.set_low_pass_on_6d bw s b).st.value)] ∧
     (Ctrl8Xl.set_low_pass_on_6d bw s b).res = bw s.address ADDR (Ctrl8Xl.set_low_pass_on_6d bw s b).st.value) ∧
    ((Ctrl8Xl.set_fastsettl_mode bw s b).log = [(s.address, ADDR, (Ctrl8Xl.set_fastsettl_mode bw s b).st.value)] ∧
     (Ctrl8Xl.set_fastsettl_mode bw s b).res = bw s.address ADDR (Ctrl8Xl.set_fastsettl_mode bw s b).st.value) ∧
    ((Ctrl8Xl.set_hp_ref_mode bw s b).log = [(s.address, ADDR, (Ctrl8Xl.set_hp_ref_mode bw s b).st.value)] ∧
     (Ctrl8Xl.set_hp_ref_mode bw s b).res = bw s.address ADDR (Ctrl8Xl.set_hp_ref_mode bw s b).st.value) :=
  ⟨⟨rfl, rfl⟩, ⟨rfl, rfl⟩, ⟨rfl, rfl⟩, ⟨rfl, rfl⟩, ⟨rfl, rfl⟩⟩

/-- C8: every field read is a pure function of the cached byte — two registers
with the same cached byte decode every field identically — it involves no bus,
and it always succeeds: the `panic!` fallback arm of `hpcf` (modelled as
`none`) is unreachable for every cached value. -/
theorem c8_reads_pure_and_total (s t : Ctrl8Xl) (h : s.value = t.value) :
    (Ctrl8Xl.hpcf s).isSome = true ∧
    Ctrl8Xl.hpcf s = Ctrl8Xl.hpcf t ∧
    s.low_pass_on_6d.1 = t.low_pass_on_6d.1 ∧
    s.hp_slope_xl_en.1 = t.hp_slope_xl_en.1 ∧
    s.fastsettl_mode.1 = t.fastsettl_mode.1 ∧
    s.hp_ref_mode.1 = t.hp_ref_mode.1 := by
  obtain ⟨a, v⟩ := s
  obtain ⟨a2, v2⟩ := t
  have hv : v = v2 := h
  subst hv
  exact ⟨hpcf_isSome ⟨a, v⟩, rfl, rfl, rfl, rfl, rfl⟩

/-- C8 witness: the theorem applied to two registers with cached byte 0xE4 at
different bus addresses. -/
theorem c8_reads_pure_and_total_witness :
    (Ctrl8Xl.new 0xE4 0x6a).value = (Ctrl8Xl.new 0xE4 0x6b).value ∧
    ((Ctrl8Xl.hpcf (Ctrl8Xl.new 0xE4 0x6a)).isSome = true ∧
     Ctrl8Xl.hpcf (Ctrl8Xl.new 0xE4 0x6a) = Ctrl8Xl.hpcf (Ctrl8Xl.new 0xE4 0x6b) ∧
     (Ctrl8Xl.new 0xE4 0x6a).low_pass_on_6d.1 = (Ctrl8Xl.new 0xE4 0x6b).low_pass_on_6d.1 ∧
     (Ctrl8Xl.new 0xE4 0x6a).hp_slope_xl_en.1 = (Ctrl8Xl.new 0xE4 0x6b).hp_slope_xl_en.1 ∧
     (Ctrl8Xl.new 0xE4 0x6a).fastsettl_mode.1 = (Ctrl8Xl.new 0xE4 0x6b).fastsettl_mode.1 ∧
     (Ctrl8Xl.new 0xE4 0x6a).hp_ref_mode.1 = (Ctrl8Xl.new 0xE4 0x6b).hp_ref_mode.1) :=
  ⟨rfl, c8_reads_pure_and_total (Ctrl8Xl.new 0xE4 0x6a) (Ctrl8Xl.new 0xE4 0x6b) rfl⟩

/-- C9: every boolean getter, though it takes the register by mutable
reference, returns the register state (both cached byte and address) exactly
unchanged; `hpcf` takes the register by shared reference and is a plain
function of the state. -/
theorem c9_getters_leave_state_unchanged (s : Ctrl8Xl) :
    s.low_pass_on_6d.2 = s ∧
    s.hp_slope_xl_en.2 = s ∧
    s.fastsettl_mode.2 = s ∧
    s.hp_ref_mode.2 = s :=
  ⟨rfl, rfl, rfl, rfl⟩

/-- C10: the bus address is an invariant: `new(value, address)` stores exactly
the supplied address, and every setter (for every bus outcome) and every
getter leaves the address field unchanged. -/
theorem c10_address_invariant {ε : Type} (bw : Nat → Nat → Nat → Except ε Unit)
    (value address : Nat) (s : Ctrl8Xl) (b : Bool) (vr : HPCF_Xl) :
    (Ctrl8Xl.new value address).address = address ∧
    (Ctrl8Xl.set_hpcf bw s vr).st.address = s.address ∧
    (Ctrl8Xl.set_hp_slope_xl_en bw s b).st.address = s.address ∧
    (Ctrl8Xl.set_low_pass_on_6d bw s b).st.address = s.address ∧
    (Ctrl8Xl.set_fastsettl_mode bw s b).st.address = s.address ∧
    (Ctrl8Xl.set_hp_ref_mode bw s b).st.address = s.address ∧
    s.low_pass_on_6d.2.address = s.address ∧
    s.hp_slope_xl_en.2.address = s.address ∧
    s.fastsettl_mode.2.address = s.address ∧
    s.hp_ref_mode.2.address = s.address :=
  ⟨rfl, rfl, rfl, rfl, rfl, rfl, rfl, rfl, rfl, rfl⟩

end Ism330dhcx
